import Mathlib

/-!
# Verification of the dashboard layout persistence and widget lifecycle core

Shallow embedding of the layout save/restore subsystem of the
`inthisone-dashboard` repository (`app/main_window.py`,
`app/plugin_manager.py`, `modules/custom_list/widget.py`), together with
proofs of the specification's claims about it.

Widgets, docks and dashboards are modelled as records carrying exactly the
fields the persistence code reads and writes; Qt-opaque payloads (the
`saveState` docking blob) are modelled as byte lists, and the toolkit's
effect of `restoreState` on dock visibility is an arbitrary function
parameter.  Python strings are Lean `String`s and Python ints are `Int`/`Nat`.
-/

set_option autoImplicit false

namespace Dashboard

/-! ## String helpers (models of the Python `str` operations used) -/

/-- Model of Python `str.lower()` (ASCII case folding, which is all the
sources apply it to). -/
def pyLower (s : String) : String := ⟨s.data.map Char.toLower⟩

/-- Model of Python `str.replace(' ', '_')`. -/
def replaceSpaces (s : String) : String :=
  ⟨s.data.map (fun c => if c = ' ' then '_' else c)⟩

/-- The title sanitisation used throughout the sources:
`title.lower().replace(' ', '_')`. -/
def sanitize (s : String) : String := replaceSpaces (pyLower s)

/-- Model of Python `str.startswith`. -/
def strStartsWith (p s : String) : Bool := p.data.isPrefixOf s.data

/-! ## Hex encoding (model of Python `bytes.hex` / `bytes.fromhex`) -/

/-- Lower-case hex digit for a nibble, as produced by Python `bytes.hex()`. -/
def hexDigitChar (n : Nat) : Char :=
  if n < 10 then Char.ofNat (48 + n) else Char.ofNat (87 + n)

/-- Model of Python `bytes.hex()`: two lower-case hex digits per byte. -/
def hexEncodeBytes (bs : List Nat) : String :=
  ⟨bs.flatMap (fun b => [hexDigitChar (b / 16), hexDigitChar (b % 16)])⟩

/-- Value of one hex digit, accepting the characters Python
`bytes.fromhex` accepts. -/
def hexCharVal (c : Char) : Option Nat :=
  if 48 ≤ c.toNat ∧ c.toNat ≤ 57 then some (c.toNat - 48)
  else if 97 ≤ c.toNat ∧ c.toNat ≤ 102 then some (c.toNat - 87)
  else if 65 ≤ c.toNat ∧ c.toNat ≤ 70 then some (c.toNat - 55)
  else none

/-- Decode a character list as hex byte pairs; `none` models the
`ValueError` raised by Python `bytes.fromhex` on malformed input. -/
def hexDecodeChars : List Char → Option (List Nat)
  | [] => some []
  | c1 :: c2 :: rest => do
      let hi ← hexCharVal c1
      let lo ← hexCharVal c2
      let bs ← hexDecodeChars rest
      pure ((16 * hi + lo) :: bs)
  | [_] => none

/-- Model of Python `bytes.fromhex`. -/
def hexDecode (s : String) : Option (List Nat) := hexDecodeChars s.data

theorem hexCharVal_hexDigitChar : ∀ n, n < 16 → hexCharVal (hexDigitChar n) = some n := by
  decide

theorem hexDecodeChars_encode (bs : List Nat) (h : ∀ b ∈ bs, b < 256) :
    hexDecodeChars (bs.flatMap (fun b => [hexDigitChar (b / 16), hexDigitChar (b % 16)])) =
      some bs := by
  induction bs with
  | nil => rfl
  | cons b bs ih =>
      have hb : b < 256 := h b (List.mem_cons_self _ _)
      have hhi : b / 16 < 16 := by omega
      have hlo : b % 16 < 16 := Nat.mod_lt _ (by omega)
      have hrest : ∀ x ∈ bs, x < 256 := fun x hx => h x (List.mem_cons_of_mem _ hx)
      have hexp : (b :: bs).flatMap (fun b => [hexDigitChar (b / 16), hexDigitChar (b % 16)]) =
          hexDigitChar (b / 16) :: hexDigitChar (b % 16) ::
            bs.flatMap (fun b => [hexDigitChar (b / 16), hexDigitChar (b % 16)]) := rfl
      rw [hexp]
      have hval : 16 * (b / 16) + b % 16 = b := by omega
      simp [hexDecodeChars, hexCharVal_hexDigitChar (b / 16) hhi,
        hexCharVal_hexDigitChar (b % 16) hlo, ih hrest, hval]

/-- `bytes.fromhex (bytes.hex bs) = bs` for genuine byte lists. -/
theorem hexDecode_hexEncodeBytes (bs : List Nat) (h : ∀ b ∈ bs, b < 256) :
    hexDecode (hexEncodeBytes bs) = some bs :=
  hexDecodeChars_encode bs h

theorem hexEncodeBytes_nil : hexEncodeBytes [] = "" := rfl

theorem hexEncodeBytes_ne_empty (b : Nat) (bs : List Nat) :
    hexEncodeBytes (b :: bs) ≠ "" := by
  intro hcontra
  have hdata : (hexEncodeBytes (b :: bs)).data = [] := by rw [hcontra]
  have hexp : (hexEncodeBytes (b :: bs)).data =
      hexDigitChar (b / 16) :: hexDigitChar (b % 16) ::
        bs.flatMap (fun b => [hexDigitChar (b / 16), hexDigitChar (b % 16)]) := rfl
  rw [hexp] at hdata
  simp at hdata

/-! ## Data model

`WidgetInfo`/`DashboardInfo` are the persisted JSON records written by
`MainWindow.save_layout` (one object per dock, one per dashboard tab).
`LiveWidget`/`LiveDashboard` model the live Qt object graph at the
granularity the persistence code observes it: a dock's object name, window
title, area, floating flag, visibility, geometry, and the hosted widget's
`widget_id` (and `list_title` where the widget has one).  A dashboard's
opaque `saveState` docking blob is a byte list. -/

structure Geometry where
  x : Int
  y : Int
  width : Int
  height : Int
deriving Repr, DecidableEq

structure WidgetInfo where
  module_name : String
  dock_name : String
  title : String
  area : Nat
  floating : Bool
  visible : Bool
  geometry : Geometry
deriving Repr, DecidableEq

structure DashboardInfo where
  title : String
  state : String
  widgets : List WidgetInfo
deriving Repr, DecidableEq

structure LiveWidget where
  widget_id : String
  dock_name : String
  title : String
  list_title : Option String
  area : Nat
  floating : Bool
  visible : Bool
  geometry : Geometry
deriving Repr, DecidableEq

structure LiveDashboard where
  title : String
  blob : List Nat
  docks : List LiveWidget
deriving Repr, DecidableEq

/-- The workspace: the ordered dashboard tabs of the main window. -/
abbrev Workspace := List LiveDashboard

/-- The plugin registry, at the granularity the layout code consults it:
the set of module names for which `plugin_manager.plugins.get(base_module)`
yields a usable `widget_class` entry. -/
abbrev Registry := List String

/-- What `db_manager.get_widget_setting("main_window", "dashboards")`
yields at restore time: the key can be absent (the DB default `"[]"`),
hold a string `json.loads` rejects, or hold a parsed dashboard list. -/
inductive Stored
  | absent
  | malformed
  | doc (dashboards : List DashboardInfo)

/-! ## Save (`MainWindow.save_dashboard_layout` / `save_layout`) -/

/-- One entry of the `widgets` array, as captured by
`save_dashboard_layout` (main_window.py lines 424-460).  `visible` is the
literal `True` the source writes; for ids starting with `custom_list` the
saved title is the widget's `list_title`, otherwise the dock's window
title. -/
def saveWidgetInfo (w : LiveWidget) : WidgetInfo :=
  { module_name := w.widget_id
    dock_name := w.dock_name
    title := if strStartsWith "custom_list" w.widget_id then w.list_title.getD w.title
             else w.title
    area := w.area
    floating := w.floating
    visible := true
    geometry := w.geometry }

/-- `save_dashboard_layout` plus the `title` field added by its caller
`save_layout` (main_window.py lines 397-398): the docking blob is
hex-encoded only when the dashboard has widgets, else `state` is `""`. -/
def save_dashboard_layout (d : LiveDashboard) : DashboardInfo :=
  let widget_instances := d.docks.map saveWidgetInfo
  { title := d.title
    state := if widget_instances.isEmpty then "" else hexEncodeBytes d.blob
    widgets := widget_instances }

/-- `save_layout` (main_window.py lines 377-417): the document written
under the fixed `("main_window", "dashboards")` key. -/
def save_layout (ws : Workspace) : List DashboardInfo :=
  ws.map save_dashboard_layout

/-! ## Widget id allocation (`MainWindow.add_widget`, lines 237-316) -/

/-- The `while dock_name in existing_names` loop of `add_widget`
(lines 247-254), with explicit fuel; `existing.length + 1` iterations
always suffice since each tried name is new. Returns the free dock object
name and the final `counter`. -/
def dockNameLoop : Nat → List String → String → String → Nat → String × Nat
  | 0, _, _, dock_name, counter => (dock_name, counter)
  | fuel + 1, existing, base_name, dock_name, counter =>
      if dock_name ∈ existing then
        dockNameLoop fuel existing base_name (base_name ++ "_" ++ toString counter)
          (counter + 1)
      else (dock_name, counter)

/-- Placeholder for the creation-time geometry of a fresh dock, which the
persistence code neither chooses nor reads (Qt lays the dock out); any
fixed value models it. -/
def defaultGeometry : Geometry := ⟨0, 0, 640, 480⟩

/-- `MainWindow.add_widget` restricted to the fields of the live model:
dock-name allocation, display-title suffixing, and the per-kind widget-id
computation (lines 245-316).  `dashIndex` is `tab_widget.indexOf` of the
target dashboard, used only by the `tree_list` branch. -/
def add_widget (dashIndex : Nat) (existingDockNames : List String)
    (widget_name widget_title : String) (widget_area : Nat) : LiveWidget :=
  let base_name := "dock_" ++ widget_name
  let alloc := dockNameLoop (existingDockNames.length + 1) existingDockNames
    base_name base_name 1
  let dock_name := alloc.1
  let counter := alloc.2
  let display_title :=
    if counter = 1 then widget_title else widget_title ++ " " ++ toString counter
  let widget_id :=
    if widget_name = "tree_list" then
      "treelist_d" ++ toString dashIndex ++ "_" ++ toString counter
    else if widget_name = "custom_list" then "custom_list_" ++ sanitize display_title
    else if widget_name = "code_viewer" then "code_viewer_" ++ sanitize display_title
    else if widget_name = "wysiwyg_editor" then
      "wysiwyg_editor_" ++ sanitize display_title
    else widget_name
  { widget_id := widget_id
    dock_name := dock_name
    title := display_title
    list_title := if widget_name = "custom_list" then some display_title else none
    area := widget_area
    floating := false
    visible := true
    geometry := defaultGeometry }

/-! ## Restore (`MainWindow.restore_dashboard_layout`, lines 577-794) -/

/-- The base-module recovery rule of `restore_dashboard_layout`
(lines 599-609): fixed-order stripping of the four known id prefixes. -/
def stripBase (module_name : String) : String :=
  if strStartsWith "custom_list_" module_name then "custom_list"
  else if strStartsWith "code_viewer_" module_name then "code_viewer"
  else if strStartsWith "treelist_" module_name then "tree_list"
  else if strStartsWith "wysiwyg_editor_" module_name then "wysiwyg_editor"
  else module_name

/-- One iteration of the widget-restoration loop (lines 590-731): skip on
empty `module_name` or unresolvable base module, else build the dock via
the `custom_list` branch, the `tree_list` branch, or `add_widget` followed
by the `widget.widget_id = module_name` reassignment of line 711.  The
per-widget DB state loading touches no layout-observable field and is
omitted; every per-widget exception is caught by the `except` of line 727,
so the model is total. -/
def createWidget (reg : Registry) (dashIndex : Nat) (existingNames : List String)
    (inst : WidgetInfo) : Option LiveWidget :=
  if inst.module_name = "" then none
  else
    let base_module := stripBase inst.module_name
    if base_module ∈ reg then
      if base_module = "custom_list" then
        some { widget_id := inst.module_name
               dock_name := inst.dock_name
               title := inst.title
               list_title := some inst.title
               area := inst.area
               floating := false
               visible := true
               geometry := defaultGeometry }
      else if base_module = "tree_list" then
        some { widget_id := inst.module_name
               dock_name := inst.dock_name
               title := inst.title
               list_title := none
               area := inst.area
               floating := false
               visible := true
               geometry := defaultGeometry }
      else
        let w := add_widget dashIndex existingNames base_module inst.title inst.area
        some { w with widget_id := inst.module_name }
    else none

/-- Whether the loop at lines 590-731 creates a dock for this entry. -/
def resolvable (reg : Registry) (inst : WidgetInfo) : Bool :=
  decide (inst.module_name ≠ "" ∧ stripBase inst.module_name ∈ reg)

/-- The widget-creation loop: accumulates `(dock, instance)` pairs in
creation order, the dock-name collision set being the docks created so
far in this (freshly created) dashboard. -/
def createLoopAux (reg : Registry) (dashIndex : Nat)
    (acc : List (LiveWidget × WidgetInfo)) :
    List WidgetInfo → List (LiveWidget × WidgetInfo)
  | [] => acc
  | inst :: rest =>
      match createWidget reg dashIndex (acc.map (fun p => p.1.dock_name)) inst with
      | some w => createLoopAux reg dashIndex (acc ++ [(w, inst)]) rest
      | none => createLoopAux reg dashIndex acc rest

/-- Whether the docking-state block (lines 736-750) actually calls
`dashboard.restoreState`: it needs created docks, a non-empty `state`
hex string, a successful `bytes.fromhex`, and a truthy byte string. -/
def blobApplies (st : String) (ndocks : Nat) : Bool :=
  ndocks != 0 && st != "" &&
    (match hexDecode st with
     | some bytes => !bytes.isEmpty
     | none => false)

/-- The docking-state blob held by the dashboard after restore: the
decoded bytes when `restoreState` ran, else the fresh dashboard's default
(empty) state. -/
def restoredBlob (st : String) (ndocks : Nat) : List Nat :=
  if blobApplies st ndocks then (hexDecode st).getD [] else []

/-- The geometry normalisation of lines 758-764. -/
def normalizeGeometry (g : Geometry) : Geometry :=
  { x := max 0 g.x
    y := max 0 g.y
    width := min (max 100 g.width) 2000
    height := min (max 100 g.height) 1200 }

/-- The final per-dock loop (lines 755-779): clamp and apply the persisted
geometry, then `dock.setVisible(True)`. -/
def finalizeWidget (p : LiveWidget × WidgetInfo) : LiveWidget :=
  { p.1 with geometry := normalizeGeometry p.2.geometry, visible := true }

/-- Visibility of the created docks before the blob is applied
(line 741). -/
def preBlobVis (pairs : List (LiveWidget × WidgetInfo)) : List Bool :=
  pairs.map (fun p => p.1.visible)

/-- The re-application of captured visibility (lines 748-750): a dock that
was visible before `restoreState` is forced visible; others keep whatever
visibility the blob left them. -/
def reconcileVis (preVis postVis : List Bool) : List Bool :=
  (List.range preVis.length).map
    (fun i => if preVis.getD i false then true else postVis.getD i false)

/-- `restore_dashboard_layout`: create all widgets, apply the blob, then
finalize geometry and visibility.  `restoreState`'s opaque side effect on
dock visibility is overwritten by the final `setVisible(True)` loop, so
the restored dashboard does not depend on it; the intermediate visibility
state is modelled separately (`midRestoreVis`) for the temporal claim. -/
def restore_dashboard_layout (reg : Registry) (dashIndex : Nat)
    (di : DashboardInfo) : LiveDashboard :=
  let pairs := createLoopAux reg dashIndex [] di.widgets
  { title := di.title
    blob := restoredBlob di.state pairs.length
    docks := pairs.map finalizeWidget }

/-- The dashboard created by `add_dashboard` when no saved layout is
usable: `f"Dashboard {self.tab_widget.count() + 1}"`, no widgets. -/
def defaultDashboard (tabCount : Nat) : LiveDashboard :=
  { title := "Dashboard " ++ toString (tabCount + 1), blob := [], docks := [] }

/-- The per-record loop of `restore_layout` (lines 516-544): each record
gets a fresh tab at the next index. -/
def restoreDashboards (reg : Registry) :
    Nat → List DashboardInfo → Workspace
  | _, [] => []
  | i, di :: rest =>
      restore_dashboard_layout reg i di :: restoreDashboards reg (i + 1) rest

/-- `MainWindow.restore_layout` (lines 484-575): on an absent key, a
malformed value, or an empty list it calls `add_dashboard` and returns
(without touching existing tabs); otherwise it removes every existing tab
and restores each record in saved order.  In the model no dashboard
iteration can raise, so `restored_count` equals the record count and the
`restored_count == 0` fallback is unreachable on a non-empty document. -/
def restore_layout (reg : Registry) (stored : Stored) (init : Workspace) :
    Workspace :=
  match stored with
  | Stored.absent => init ++ [defaultDashboard init.length]
  | Stored.malformed => init ++ [defaultDashboard init.length]
  | Stored.doc dashboards =>
      if dashboards.isEmpty then init ++ [defaultDashboard init.length]
      else restoreDashboards reg 0 dashboards

/-! ## Observations -/

/-- The observation the round-trip claim compares: dashboard titles in
order, widget instance ids in order, the non-opaque geometry fields, and
the opaque docking blob. -/
def obsDashboard (d : LiveDashboard) :
    String × List String × List Geometry × List Nat :=
  (d.title, d.docks.map (fun w => w.widget_id), d.docks.map (fun w => w.geometry),
    d.blob)

def obsWorkspace (ws : Workspace) :
    List (String × List String × List Geometry × List Nat) :=
  ws.map obsDashboard

/-! ## Well-formedness of a live snapshot -/

/-- A live widget whose persisted record restores faithfully: a non-empty
id whose base module is registered, and geometry already inside the clamp
bounds of lines 758-764. -/
def WidgetWF (reg : Registry) (w : LiveWidget) : Prop :=
  w.widget_id ≠ "" ∧ stripBase w.widget_id ∈ reg ∧
  0 ≤ w.geometry.x ∧ 0 ≤ w.geometry.y ∧
  100 ≤ w.geometry.width ∧ w.geometry.width ≤ 2000 ∧
  100 ≤ w.geometry.height ∧ w.geometry.height ≤ 1200

/-- A dashboard whose snapshot restores faithfully: a widgetless dashboard
must carry the fresh default (empty) docking blob, the blob is a genuine
byte string, and every dock is well-formed. -/
def DashboardWF (reg : Registry) (d : LiveDashboard) : Prop :=
  (d.docks = [] → d.blob = []) ∧ (∀ b ∈ d.blob, b < 256) ∧
  ∀ w ∈ d.docks, WidgetWF reg w

def WorkspaceWF (reg : Registry) (ws : Workspace) : Prop :=
  ws ≠ [] ∧ ∀ d ∈ ws, DashboardWF reg d

/-! ## Temporal structure of one dashboard restore

`restore_dashboard_layout` is phase-structured: the widget-creation loop
(lines 590-731), then the docking-state block (lines 736-750), then the
geometry/visibility loop (lines 755-779).  `restoreTrace` records that
event order; `midRestoreVis` is the dock visibility right after the
docking-state block, with `f` the toolkit's opaque visibility effect of
`dashboard.restoreState`. -/

inductive RestoreEvent
  | widgetCreated (widget_id : String)
  | blobApplied
  | geometryApplied (idx : Nat)
deriving Repr, DecidableEq

def restoreTrace (reg : Registry) (dashIndex : Nat) (di : DashboardInfo) :
    List RestoreEvent :=
  let pairs := createLoopAux reg dashIndex [] di.widgets
  pairs.map (fun p => RestoreEvent.widgetCreated p.1.widget_id) ++
    (if blobApplies di.state pairs.length then [RestoreEvent.blobApplied] else []) ++
    (List.range pairs.length).map RestoreEvent.geometryApplied

/-- Dock visibility after the docking-state block: if `restoreState` ran,
its arbitrary effect `f` on the captured pre-apply visibilities is
corrected by re-showing every dock that was visible before (lines
741-750); otherwise visibility is unchanged. -/
def midRestoreVis (reg : Registry) (f : List Bool → List Bool) (dashIndex : Nat)
    (di : DashboardInfo) : List Bool :=
  let pairs := createLoopAux reg dashIndex [] di.widgets
  let preVis := preBlobVis pairs
  if blobApplies di.state pairs.length then reconcileVis preVis (f preVis)
  else preVis

/-! ## Custom list state persistence (`modules/custom_list/widget.py`)

The widget-settings table maps `(widget_id, key)` to a JSON string; the
model stores the parsed value directly: `vList` a JSON list (so `"[]"` is
`vList []`), `vStr` any other stored string. Setting a key models SQLite
`INSERT OR REPLACE`; the newest entry wins on lookup. -/

inductive DBVal
  | vStr (s : String)
  | vList (l : List String)
deriving Repr, DecidableEq

abbrev DB := List ((String × String) × DBVal)

def dbGet (db : DB) (widget_id key : String) : Option DBVal :=
  (db.find? (fun e => e.1.1 == widget_id && e.1.2 == key)).map (fun e => e.2)

def dbSet (db : DB) (widget_id key : String) (v : DBVal) : DB :=
  ((widget_id, key), v) :: db

/-- The fields of `CustomListWidget` the rename path reads and writes.
Columns and items are opaque payloads to the rename logic; their JSON
encodings are modelled as plain strings. -/
structure CustomListState where
  widget_id : String
  list_title : String
  columns : List String
  items : List String
deriving Repr, DecidableEq

/-- The single default column (`{'id': 'title', ...}`). -/
def defaultColumn : String := "title"

/-- `CustomListWidget.load_columns` (widget.py lines 869-887): a stored
non-empty list is adopted; an empty list, an unparseable value, or an
absent key all fall back to the default column. -/
def load_columns (db : DB) (w : CustomListState) : CustomListState :=
  match dbGet db w.widget_id "columns" with
  | some (DBVal.vList l) =>
      if l.isEmpty then { w with columns := [defaultColumn] }
      else { w with columns := l }
  | some (DBVal.vStr _) => { w with columns := [defaultColumn] }
  | none => { w with columns := [defaultColumn] }

/-- `CustomListWidget.load_items` (widget.py lines 889-898): an absent key
(`None`, falsy) leaves the items untouched; a stored list (even `"[]"`)
replaces them; an unparseable value raises and the handler resets to
`[]`. -/
def load_items (db : DB) (w : CustomListState) : CustomListState :=
  match dbGet db w.widget_id "items" with
  | some (DBVal.vList l) => { w with items := l }
  | some (DBVal.vStr _) => { w with items := [] }
  | none => w

def save_columns (db : DB) (w : CustomListState) : DB :=
  dbSet db w.widget_id "columns" (DBVal.vList w.columns)

def save_items (db : DB) (w : CustomListState) : DB :=
  dbSet db w.widget_id "items" (DBVal.vList w.items)

/-- The `widget_id` property setter (widget.py lines 340-349): for a
truthy value it stores the id and immediately reloads columns and items
from the database under that new id. -/
def set_widget_id (db : DB) (w : CustomListState) (value : String) :
    CustomListState :=
  if value = "" then w
  else load_items db (load_columns db { w with widget_id := value })

/-- `CustomListWidget.edit_title` (widget.py lines 516-553), on the
accepted-dialog path with a non-blank title: rename, reassign the id via
the setter, persist `current_title`, and when the id changed save
columns/items under the new id and write `"[]"` under the old id's keys.
Returns the updated database and widget state. -/
def edit_title (db : DB) (w : CustomListState) (new_title : String) :
    DB × CustomListState :=
  let old_widget_id := w.widget_id
  let w1 := { w with list_title := new_title }
  let w2 := set_widget_id db w1 ("custom_list" ++ "_" ++ sanitize w1.list_title)
  let db1 := dbSet db "custom_list" "current_title" (DBVal.vStr w2.list_title)
  if old_widget_id ≠ w2.widget_id then
    let db2 := save_columns db1 w2
    let db3 := save_items db2 w2
    let db4 := dbSet db3 old_widget_id "columns" (DBVal.vList [])
    let db5 := dbSet db4 old_widget_id "items" (DBVal.vList [])
    (db5, w2)
  else (db1, w2)

/-! ## The specification's view of id allocation and base recovery

These two definitions follow the spec's words, not the source; they exist
to be compared with `add_widget` and `stripBase`. -/

/-- Modelled from the spec (§4.2): the numeric-suffix fallback
`base_1, base_2, …` disambiguated against the live dock set. -/
def specSuffixLoop : Nat → List String → String → Nat → String
  | 0, _, base, k => base ++ "_" ++ toString k
  | fuel + 1, live, base, k =>
      let cand := base ++ "_" ++ toString k
      if cand ∈ live then specSuffixLoop fuel live base (k + 1) else cand

/-- Modelled from the spec (§4.2 / claim C5): id is the base verbatim for
single-instance kinds; else `base + "_" + sanitize(title)`, falling back
to a numeric suffix only when that identifier already exists among the
live docks. -/
def spec_allocate (supports_multiple : Bool) (liveIds : List String)
    (base title : String) : String :=
  if !supports_multiple then base
  else
    let cand := base ++ "_" ++ sanitize title
    if cand ∈ liveIds then specSuffixLoop (liveIds.length + 1) liveIds base 1
    else cand

/-- The four known id-prefix/base-module pairs (spec §9). -/
def knownBases : List (String × String) :=
  [("custom_list_", "custom_list"), ("code_viewer_", "code_viewer"),
   ("treelist_", "tree_list"), ("wysiwyg_editor_", "wysiwyg_editor")]

/-- Modelled from the spec (§4.3 / claim C6): resolve the base module by
the longest known prefix of the persisted id, the id verbatim when no
known prefix matches. -/
def longestPrefixBase (module_name : String) : String :=
  let cands := knownBases.filter (fun pb => strStartsWith pb.1 module_name)
  match cands.foldl
      (fun best pb =>
        match best with
        | none => some pb
        | some b => if b.1.length < pb.1.length then some pb else some b)
      none with
  | some pb => pb.2
  | none => module_name

/-! ## Supporting lemmas -/

theorem createWidget_id (reg : Registry) (dI : Nat) (ex : List String)
    (inst : WidgetInfo) (w : LiveWidget)
    (h : createWidget reg dI ex inst = some w) :
    w.widget_id = inst.module_name := by
  simp only [createWidget] at h
  split_ifs at h <;> simp_all
  all_goals exact (congrArg LiveWidget.widget_id h.symm)

theorem createWidget_isSome (reg : Registry) (dI : Nat) (ex : List String)
    (inst : WidgetInfo) :
    (createWidget reg dI ex inst).isSome = resolvable reg inst := by
  simp only [createWidget, resolvable]
  split_ifs <;> simp_all

theorem createLoopAux_pairs (reg : Registry) (dI : Nat) (l : List WidgetInfo) :
    ∀ acc, (createLoopAux reg dI acc l).map (fun p => (p.1.widget_id, p.2)) =
      acc.map (fun p => (p.1.widget_id, p.2)) ++
        (l.filter (resolvable reg)).map (fun i => (i.module_name, i)) := by
  induction l with
  | nil => intro acc; simp [createLoopAux]
  | cons inst rest ih =>
      intro acc
      rw [createLoopAux]
      cases hc : createWidget reg dI (acc.map (fun p => p.1.dock_name)) inst with
      | some w =>
          have hres : resolvable reg inst = true := by
            have hs := createWidget_isSome reg dI (acc.map fun p => p.1.dock_name) inst
            rw [hc] at hs
            exact hs.symm
          have hid := createWidget_id _ _ _ _ _ hc
          rw [ih]
          simp [List.filter_cons, hres, hid]
      | none =>
          have hres : resolvable reg inst = false := by
            have hs := createWidget_isSome reg dI (acc.map fun p => p.1.dock_name) inst
            rw [hc] at hs
            exact hs.symm
          rw [ih]
          simp [List.filter_cons, hres]

theorem createLoopAux_ids (reg : Registry) (dI : Nat) (l : List WidgetInfo) :
    (createLoopAux reg dI [] l).map (fun p => p.1.widget_id) =
      (l.filter (resolvable reg)).map (fun i => i.module_name) := by
  have h := congrArg (List.map Prod.fst) (createLoopAux_pairs reg dI l [])
  simpa [List.map_map, Function.comp] using h

theorem createLoopAux_insts (reg : Registry) (dI : Nat) (l : List WidgetInfo) :
    (createLoopAux reg dI [] l).map (fun p => p.2) = l.filter (resolvable reg) := by
  have h := congrArg (List.map Prod.snd) (createLoopAux_pairs reg dI l [])
  simp only [List.map_map, List.map_nil, List.nil_append] at h
  have h1 : (Prod.snd ∘ fun p : LiveWidget × WidgetInfo => (p.1.widget_id, p.2)) =
      fun p : LiveWidget × WidgetInfo => p.2 := rfl
  have h2 : (Prod.snd ∘ fun i : WidgetInfo => (i.module_name, i)) =
      fun i : WidgetInfo => i := rfl
  rw [h1, h2] at h
  simpa using h

theorem createLoopAux_length (reg : Registry) (dI : Nat) (l : List WidgetInfo) :
    (createLoopAux reg dI [] l).length = (l.filter (resolvable reg)).length := by
  have h := congrArg List.length (createLoopAux_insts reg dI l)
  simpa using h

theorem normalizeGeometry_eq_self (g : Geometry) (hx : 0 ≤ g.x) (hy : 0 ≤ g.y)
    (hw1 : 100 ≤ g.width) (hw2 : g.width ≤ 2000)
    (hh1 : 100 ≤ g.height) (hh2 : g.height ≤ 1200) :
    normalizeGeometry g = g := by
  cases g
  simp only [normalizeGeometry, Geometry.mk.injEq] at *
  refine ⟨?_, ?_, ?_, ?_⟩ <;> omega

theorem saveWidgetInfo_resolvable (reg : Registry) (w : LiveWidget)
    (h : WidgetWF reg w) : resolvable reg (saveWidgetInfo w) = true := by
  simp [resolvable, saveWidgetInfo]
  exact ⟨h.1, h.2.1⟩

/-- On a well-formed dashboard the save/restore composition preserves the
observation: title, ordered widget ids, geometries, and the docking
blob. -/
theorem obsDashboard_restore_save (reg : Registry) (i : Nat) (d : LiveDashboard)
    (h : DashboardWF reg d) :
    obsDashboard (restore_dashboard_layout reg i (save_dashboard_layout d)) =
      obsDashboard d := by
  obtain ⟨hempty, hbytes, hwf⟩ := h
  have hfilter : (save_dashboard_layout d).widgets.filter (resolvable reg) =
      (save_dashboard_layout d).widgets := by
    apply List.filter_eq_self.mpr
    intro inst hinst
    simp only [save_dashboard_layout, List.mem_map] at hinst
    obtain ⟨w, hw, rfl⟩ := hinst
    exact saveWidgetInfo_resolvable reg w (hwf w hw)
  have hids := createLoopAux_ids reg i (save_dashboard_layout d).widgets
  have hinsts := createLoopAux_insts reg i (save_dashboard_layout d).widgets
  have hlen := createLoopAux_length reg i (save_dashboard_layout d).widgets
  rw [hfilter] at hids hinsts hlen
  simp only [obsDashboard, restore_dashboard_layout]
  refine Prod.ext rfl (Prod.ext ?_ (Prod.ext ?_ ?_))
  · -- widget ids
    show (List.map finalizeWidget _).map (fun w => w.widget_id) = _
    rw [List.map_map]
    have : (fun w => LiveWidget.widget_id w) ∘ finalizeWidget =
        fun p : LiveWidget × WidgetInfo => p.1.widget_id := rfl
    rw [this, hids]
    simp [save_dashboard_layout, saveWidgetInfo, List.map_map, Function.comp]
  · -- geometries
    show (List.map finalizeWidget _).map (fun w => w.geometry) = _
    rw [List.map_map]
    have hcomp : (fun w => LiveWidget.geometry w) ∘ finalizeWidget =
        (fun i : WidgetInfo => normalizeGeometry i.geometry) ∘
          (fun p : LiveWidget × WidgetInfo => p.2) := rfl
    rw [hcomp, ← List.map_map, hinsts]
    simp only [save_dashboard_layout, List.map_map]
    apply List.map_congr_left
    intro w hw
    have hg := hwf w hw
    show normalizeGeometry (saveWidgetInfo w).geometry = w.geometry
    have : (saveWidgetInfo w).geometry = w.geometry := rfl
    rw [this]
    exact normalizeGeometry_eq_self _ hg.2.2.1 hg.2.2.2.1 hg.2.2.2.2.1
      hg.2.2.2.2.2.1 hg.2.2.2.2.2.2.1 hg.2.2.2.2.2.2.2
  · -- docking blob
    show restoredBlob (save_dashboard_layout d).state _ = d.blob
    cases hd : d.docks with
    | nil =>
        have hstate : (save_dashboard_layout d).state = "" := by
          simp [save_dashboard_layout, hd]
        rw [hstate]
        rw [hempty hd]
        simp [restoredBlob, blobApplies]
    | cons w rest =>
        have hne : ¬(save_dashboard_layout d).widgets.isEmpty := by
          simp [save_dashboard_layout, hd]
        have hstate : (save_dashboard_layout d).state = hexEncodeBytes d.blob := by
          simp only [save_dashboard_layout]
          rw [if_neg (by simpa [save_dashboard_layout] using hne)]
        have hlen2 : (createLoopAux reg i [] (save_dashboard_layout d).widgets).length =
            rest.length + 1 := by
          rw [hlen]
          simp [save_dashboard_layout, hd]
        cases hb : d.blob with
        | nil =>
            rw [hstate, hb, hexEncodeBytes_nil]
            simp [restoredBlob, blobApplies]
        | cons b bs =>
            have hdec : hexDecode (hexEncodeBytes (b :: bs)) = some (b :: bs) := by
              rw [← hb]
              exact hexDecode_hexEncodeBytes d.blob hbytes
            rw [hstate, hlen2, hb]
            simp [restoredBlob, blobApplies, hdec, hexEncodeBytes_ne_empty]

theorem restoreDashboards_obs (reg : Registry) (ws : Workspace)
    (h : ∀ d ∈ ws, DashboardWF reg d) : ∀ i,
    obsWorkspace (restoreDashboards reg i (save_layout ws)) = obsWorkspace ws := by
  induction ws with
  | nil => intro i; rfl
  | cons d rest ih =>
      intro i
      have hd := h d (List.mem_cons_self _ _)
      have hrest := fun x hx => h x (List.mem_cons_of_mem d hx)
      show obsWorkspace (restoreDashboards reg i
        (save_dashboard_layout d :: save_layout rest)) = _
      rw [restoreDashboards]
      simp only [obsWorkspace, List.map_cons]
      rw [obsDashboard_restore_save reg i d hd]
      have htail := ih hrest (i + 1)
      simp only [obsWorkspace] at htail
      rw [htail]

/-! ## The claims -/

/-- C1.  For every well-formed workspace snapshot, saving the workspace
and then restoring the saved document yields a workspace observationally
equivalent to the original: the same ordered dashboards with the same
titles, the same widget instance ids in the same order, the same
non-opaque geometry fields, and each opaque docking-state blob
round-tripped byte-for-byte through its hex encoding. -/
theorem C1_save_restore_roundtrip (reg : Registry) (init ws : Workspace)
    (h : WorkspaceWF reg ws) :
    obsWorkspace (restore_layout reg (Stored.doc (save_layout ws)) init) =
      obsWorkspace ws := by
  obtain ⟨hne, hdash⟩ := h
  have hsave : (save_layout ws).isEmpty = false := by
    cases ws with
    | nil => exact absurd rfl hne
    | cons d rest => rfl
  simp only [restore_layout, hsave, Bool.false_eq_true, if_false]
  exact restoreDashboards_obs reg ws hdash 0

/-- Concrete registry and workspace exercising the round-trip: one
dashboard with a clock, a custom list, and a code viewer, and the docking
blob `[0x0a, 0x0b]` (hex `"0a0b"`). -/
def regEx : Registry := ["clock", "custom_list", "code_viewer"]

def wsEx : Workspace :=
  [⟨"Main", [10, 11],
    [⟨"clock", "dock_clock", "Clock", none, 2, false, false, ⟨10, 20, 300, 200⟩⟩,
     ⟨"custom_list_groceries", "dock_custom_list", "Groceries", some "Groceries",
       2, false, true, ⟨0, 0, 400, 300⟩⟩,
     ⟨"code_viewer_notes", "dock_code_viewer", "Notes", none, 1, false, true,
       ⟨5, 5, 500, 400⟩⟩]⟩]

theorem C1_witness :
    WorkspaceWF regEx wsEx ∧
    obsWorkspace (restore_layout regEx (Stored.doc (save_layout wsEx)) []) =
      obsWorkspace wsEx :=
  ⟨by unfold WorkspaceWF DashboardWF WidgetWF; decide,
    C1_save_restore_roundtrip regEx [] wsEx
      (by unfold WorkspaceWF DashboardWF WidgetWF; decide)⟩

/-- C2.  When the stored value under the fixed workspace key is absent,
malformed, or an empty list, `restore_layout` creates exactly one default
dashboard (`"Dashboard 1"` at startup, when no tabs exist) containing zero
widgets, and restores nothing else. -/
theorem C2_empty_input_default (reg : Registry) :
    restore_layout reg Stored.absent [] = [⟨"Dashboard 1", [], []⟩] ∧
    restore_layout reg Stored.malformed [] = [⟨"Dashboard 1", [], []⟩] ∧
    restore_layout reg (Stored.doc []) [] = [⟨"Dashboard 1", [], []⟩] ∧
    (⟨"Dashboard 1", [], []⟩ : LiveDashboard).docks = [] := by
  refine ⟨?_, ?_, ?_, rfl⟩ <;> rfl

/-- C3.  A saved dashboard record with exactly one entry whose
`module_name` does not resolve to a registered plugin restores every
other (resolvable) widget in order, skips only the bad entry, and yields
a restored-widget count strictly below the entry count.  (In the source
every per-widget failure is caught at lines 727-731, so no exception
reaches the caller; the model is accordingly a total function.) -/
theorem C3_graceful_degradation (reg : Registry) (dI : Nat) (di : DashboardInfo)
    (pre post : List WidgetInfo) (bad : WidgetInfo)
    (hsplit : di.widgets = pre ++ bad :: post)
    (hgood : ∀ inst ∈ pre ++ post, resolvable reg inst = true)
    (hbad : stripBase bad.module_name ∉ reg) :
    (restore_dashboard_layout reg dI di).docks.map (fun w => w.widget_id) =
      (pre ++ post).map (fun i => i.module_name) ∧
    (restore_dashboard_layout reg dI di).docks.length = di.widgets.length - 1 ∧
    (restore_dashboard_layout reg dI di).docks.length < di.widgets.length := by
  have hbadres : resolvable reg bad = false := by
    simp [resolvable, hbad]
  have hfilter : di.widgets.filter (resolvable reg) = pre ++ post := by
    rw [hsplit, List.filter_append,
      List.filter_eq_self.mpr (fun a ha => hgood a (List.mem_append_left _ ha)),
      List.filter_cons]
    simp only [hbadres, Bool.false_eq_true, if_false]
    rw [List.filter_eq_self.mpr (fun a ha => hgood a (List.mem_append_right _ ha))]
  have hids := createLoopAux_ids reg dI di.widgets
  have hlen := createLoopAux_length reg dI di.widgets
  rw [hfilter] at hids hlen
  have hdocks : (restore_dashboard_layout reg dI di).docks =
      (createLoopAux reg dI [] di.widgets).map finalizeWidget := rfl
  have hwlen : di.widgets.length = pre.length + post.length + 1 := by
    rw [hsplit]
    simp only [List.length_append, List.length_cons]
    omega
  refine ⟨?_, ?_, ?_⟩
  · rw [hdocks, List.map_map]
    have hcomp : ((fun w => LiveWidget.widget_id w) ∘ finalizeWidget) =
        fun p : LiveWidget × WidgetInfo => p.1.widget_id := rfl
    rw [hcomp, hids]
  · rw [hdocks, List.length_map, hlen, List.length_append, hwlen]
    omega
  · rw [hdocks, List.length_map, hlen, List.length_append, hwlen]
    omega

theorem C3_witness :
    (⟨"Main", "",
      [⟨"clock", "dock_clock", "Clock", 2, false, true, ⟨0, 0, 300, 200⟩⟩,
       ⟨"ghost_widget", "dock_ghost", "Ghost", 2, false, true,
         ⟨0, 0, 200, 200⟩⟩]⟩ : DashboardInfo).widgets =
      [⟨"clock", "dock_clock", "Clock", 2, false, true, ⟨0, 0, 300, 200⟩⟩] ++
        ⟨"ghost_widget", "dock_ghost", "Ghost", 2, false, true,
          ⟨0, 0, 200, 200⟩⟩ :: [] ∧
    (restore_dashboard_layout regEx 0
        ⟨"Main", "",
          [⟨"clock", "dock_clock", "Clock", 2, false, true, ⟨0, 0, 300, 200⟩⟩,
           ⟨"ghost_widget", "dock_ghost", "Ghost", 2, false, true,
             ⟨0, 0, 200, 200⟩⟩]⟩).docks.map (fun w => w.widget_id) =
      ["clock"] :=
  ⟨by decide,
    by
      have h := C3_graceful_degradation regEx 0
        ⟨"Main", "",
          [⟨"clock", "dock_clock", "Clock", 2, false, true, ⟨0, 0, 300, 200⟩⟩,
           ⟨"ghost_widget", "dock_ghost", "Ghost", 2, false, true,
             ⟨0, 0, 200, 200⟩⟩]⟩
        [⟨"clock", "dock_clock", "Clock", 2, false, true, ⟨0, 0, 300, 200⟩⟩] []
        ⟨"ghost_widget", "dock_ghost", "Ghost", 2, false, true, ⟨0, 0, 200, 200⟩⟩
        (by decide) (by decide) (by decide)
      exact h.1⟩

/-- C10.  `save_dashboard_layout` writes `visible: True` for every
captured widget record, whatever the live dock's actual visibility: the
persisted `visible` field is the literal `True` of main_window.py line
452. -/
theorem C10_visible_always_true (d : LiveDashboard) :
    ∀ wi ∈ (save_dashboard_layout d).widgets, wi.visible = true := by
  intro wi hwi
  simp only [save_dashboard_layout, List.mem_map] at hwi
  obtain ⟨w, _, rfl⟩ := hwi
  rfl

/-- A dashboard whose single clock dock is hidden (`visible := false`). -/
def dHiddenEx : LiveDashboard :=
  ⟨"Solo", [], [⟨"clock", "dock_clock", "Clock", none, 2, false, false,
    ⟨0, 0, 300, 200⟩⟩]⟩

theorem C10_witness :
    (⟨"clock", "dock_clock", "Clock", 2, false, true,
        ⟨0, 0, 300, 200⟩⟩ : WidgetInfo) ∈ (save_dashboard_layout dHiddenEx).widgets ∧
    (⟨"clock", "dock_clock", "Clock", 2, false, true,
        ⟨0, 0, 300, 200⟩⟩ : WidgetInfo).visible = true :=
  ⟨by decide,
    C10_visible_always_true dHiddenEx
      ⟨"clock", "dock_clock", "Clock", 2, false, true, ⟨0, 0, 300, 200⟩⟩
      (by decide)⟩

theorem normalizeGeometry_bounds (g : Geometry) :
    0 ≤ (normalizeGeometry g).x ∧ 0 ≤ (normalizeGeometry g).y ∧
    100 ≤ (normalizeGeometry g).width ∧ (normalizeGeometry g).width ≤ 2000 ∧
    100 ≤ (normalizeGeometry g).height ∧ (normalizeGeometry g).height ≤ 1200 := by
  simp only [normalizeGeometry]
  refine ⟨?_, ?_, ?_, ?_, ?_, ?_⟩ <;> omega

/-- C7.  Every widget of a restored dashboard carries the clamped
geometry of its persisted record — width in `[100, 2000]`, height in
`[100, 1200]`, x and y non-negative — and is forced visible. -/
theorem C7_geometry_clamped (reg : Registry) (dI : Nat) (di : DashboardInfo)
    (w : LiveWidget) (hw : w ∈ (restore_dashboard_layout reg dI di).docks) :
    0 ≤ w.geometry.x ∧ 0 ≤ w.geometry.y ∧
    100 ≤ w.geometry.width ∧ w.geometry.width ≤ 2000 ∧
    100 ≤ w.geometry.height ∧ w.geometry.height ≤ 1200 ∧
    w.visible = true ∧
    ∃ inst ∈ di.widgets, w.geometry = normalizeGeometry inst.geometry := by
  have hdocks : (restore_dashboard_layout reg dI di).docks =
      (createLoopAux reg dI [] di.widgets).map finalizeWidget := rfl
  rw [hdocks, List.mem_map] at hw
  obtain ⟨p, hp, rfl⟩ := hw
  have hinst : p.2 ∈ di.widgets := by
    have hmem : p.2 ∈ (createLoopAux reg dI [] di.widgets).map (fun p => p.2) :=
      List.mem_map_of_mem _ hp
    rw [createLoopAux_insts] at hmem
    exact List.mem_of_mem_filter hmem
  have hgeom : (finalizeWidget p).geometry = normalizeGeometry p.2.geometry := rfl
  have hb := normalizeGeometry_bounds p.2.geometry
  rw [hgeom]
  exact ⟨hb.1, hb.2.1, hb.2.2.1, hb.2.2.2.1, hb.2.2.2.2.1, hb.2.2.2.2.2, rfl,
    ⟨p.2, hinst, rfl⟩⟩

/-- A persisted record with out-of-range geometry: width 5000, negative
origin. -/
def diBigEx : DashboardInfo :=
  ⟨"Big", "", [⟨"clock", "dock_clock", "Clock", 2, false, true, ⟨-5, -7, 5000, 300⟩⟩]⟩

/-- The single widget `restore_dashboard_layout` produces from
`diBigEx`. -/
def wBigEx : LiveWidget :=
  ⟨"clock", "dock_clock", "Clock", none, 2, false, true, ⟨0, 0, 2000, 300⟩⟩

theorem C7_witness :
    wBigEx ∈ (restore_dashboard_layout regEx 0 diBigEx).docks ∧
    wBigEx.geometry.width = 2000 ∧
    (0 ≤ wBigEx.geometry.x ∧ 0 ≤ wBigEx.geometry.y ∧
      100 ≤ wBigEx.geometry.width ∧ wBigEx.geometry.width ≤ 2000 ∧
      100 ≤ wBigEx.geometry.height ∧ wBigEx.geometry.height ≤ 1200 ∧
      wBigEx.visible = true ∧
      ∃ inst ∈ diBigEx.widgets, wBigEx.geometry = normalizeGeometry inst.geometry) :=
  ⟨by decide, by decide, C7_geometry_clamped regEx 0 diBigEx wBigEx (by decide)⟩

/-- Helper for the temporal claim: in a trace made of a creation segment
followed by creation-free events, every creation event strictly precedes
every `blobApplied` event. -/
theorem creation_before_blob (L A D : List RestoreEvent) (hL : L = A ++ D)
    (hA : ∀ e ∈ A, ∃ s, e = RestoreEvent.widgetCreated s)
    (hD : ∀ e ∈ D, ∀ s, e ≠ RestoreEvent.widgetCreated s)
    (i j : Nat) (wid : String)
    (hci : L[i]? = some (RestoreEvent.widgetCreated wid))
    (hbj : L[j]? = some RestoreEvent.blobApplied) : i < j := by
  subst hL
  obtain ⟨hi, hgi⟩ := List.getElem?_eq_some_iff.mp hci
  obtain ⟨hj, hgj⟩ := List.getElem?_eq_some_iff.mp hbj
  have hiA : i < A.length := by
    by_contra hge
    push_neg at hge
    have hmem : (A ++ D)[i] ∈ D := by
      have hi2 : i - A.length < D.length := by
        simp only [List.length_append] at hi; omega
      rw [List.getElem_append_right hge]
      exact List.get_mem D (i - A.length) hi2
    exact hD _ hmem wid hgi
  have hjA : A.length ≤ j := by
    by_contra hlt
    push_neg at hlt
    have hmem : (A ++ D)[j] ∈ A := by
      rw [List.getElem_append_left hlt]
      exact List.get_mem A j hlt
    obtain ⟨s, hs⟩ := hA _ hmem
    rw [hgj] at hs
    exact RestoreEvent.noConfusion hs
  omega

theorem reconcileVis_getD (pre post : List Bool) (k : Nat) (hk : k < pre.length)
    (h : pre.get ⟨k, hk⟩ = true) : (reconcileVis pre post).getD k false = true := by
  unfold reconcileVis
  have hk3 : k < ((List.range pre.length).map
      (fun i => if pre.getD i false then true else post.getD i false)).length := by
    simpa using hk
  rw [List.getD_eq_getElem _ _ hk3, List.getElem_map, List.getElem_range]
  have hpre : pre.getD k false = true := by
    rw [List.getD_eq_getElem pre false hk]
    rw [List.get_eq_getElem] at h
    exact h
  rw [if_pos hpre]

/-- C8.  Within one dashboard restore, the docking-state blob is applied
only after every widget of that dashboard has been created (every
creation event strictly precedes the `blobApplied` event of the trace);
and each widget's visibility is captured before the blob is applied, so
any widget visible before the application is visible again after the
re-application step, whatever the toolkit's `restoreState` did to dock
visibility. -/
theorem C8_creation_precedes_blob (reg : Registry) (f : List Bool → List Bool)
    (dI : Nat) (di : DashboardInfo) :
    (∀ i j (hi : i < (restoreTrace reg dI di).length)
        (hj : j < (restoreTrace reg dI di).length) (wid : String),
        (restoreTrace reg dI di).get ⟨i, hi⟩ = RestoreEvent.widgetCreated wid →
        (restoreTrace reg dI di).get ⟨j, hj⟩ = RestoreEvent.blobApplied →
        i < j) ∧
    (blobApplies di.state (createLoopAux reg dI [] di.widgets).length = true →
      ∀ k (hk : k < (preBlobVis (createLoopAux reg dI [] di.widgets)).length),
        (preBlobVis (createLoopAux reg dI [] di.widgets)).get ⟨k, hk⟩ = true →
        (midRestoreVis reg f dI di).getD k false = true) := by
  constructor
  · have htr : restoreTrace reg dI di =
        (createLoopAux reg dI [] di.widgets).map
            (fun p => RestoreEvent.widgetCreated p.1.widget_id) ++
          ((if blobApplies di.state (createLoopAux reg dI [] di.widgets).length then
              [RestoreEvent.blobApplied] else []) ++
            (List.range (createLoopAux reg dI [] di.widgets).length).map
              RestoreEvent.geometryApplied) := by
      simp [restoreTrace, List.append_assoc]
    intro i j hi hj wid hci hbj
    have hci2 : (restoreTrace reg dI di)[i]? =
        some (RestoreEvent.widgetCreated wid) := by
      rw [List.getElem?_eq_getElem hi]
      exact congrArg some hci
    have hbj2 : (restoreTrace reg dI di)[j]? =
        some RestoreEvent.blobApplied := by
      rw [List.getElem?_eq_getElem hj]
      exact congrArg some hbj
    refine creation_before_blob _ _ _ htr ?_ ?_ i j wid hci2 hbj2
    · intro e he
      rw [List.mem_map] at he
      obtain ⟨p, _, rfl⟩ := he
      exact ⟨p.1.widget_id, rfl⟩
    · intro e he s
      rcases List.mem_append.mp he with hb | hc
      · rcases hblob : blobApplies di.state
          (createLoopAux reg dI [] di.widgets).length with _ | _
        · rw [hblob] at hb; simp at hb
        · rw [hblob] at hb
          simp only [if_true, List.mem_singleton] at hb
          rw [hb]
          exact fun hcontra => RestoreEvent.noConfusion hcontra
      · rw [List.mem_map] at hc
        obtain ⟨k, _, rfl⟩ := hc
        exact fun hcontra => RestoreEvent.noConfusion hcontra
  · intro hba k hk hpre
    simp only [midRestoreVis, hba, if_true]
    exact reconcileVis_getD _ _ k hk hpre

/-- A saved dashboard record whose docking blob applies: one clock widget
and blob hex `"0a0b"`. -/
def diC8Ex : DashboardInfo :=
  ⟨"Main", "0a0b", [⟨"clock", "dock_clock", "Clock", 2, false, true, ⟨0, 0, 300, 200⟩⟩]⟩

theorem C8_witness :
    restoreTrace regEx 0 diC8Ex =
      [RestoreEvent.widgetCreated "clock", RestoreEvent.blobApplied,
        RestoreEvent.geometryApplied 0] ∧
    (0 : Nat) < 1 ∧
    (midRestoreVis regEx (fun _ => [false]) 0 diC8Ex).getD 0 false = true :=
  ⟨by decide,
    (C8_creation_precedes_blob regEx (fun _ => [false]) 0 diC8Ex).1 0 1
      (by decide) (by decide) "clock" (by decide) (by decide),
    (C8_creation_precedes_blob regEx (fun _ => [false]) 0 diC8Ex).2
      (by decide) 0 (by decide) (by decide)⟩

/-- C5 counterexample.  Live dashboard: one custom list titled
"Groceries" (id `custom_list_groceries`, dock object name
`dock_custom_list` — exactly what `add_widget` produces on an empty
dashboard, first two conjuncts).  Adding a second custom list titled
"Hardware": the candidate id `custom_list_hardware` collides with no live
id, so the claimed allocator returns it verbatim; the code instead keys
its collision check on the dock object name `dock_custom_list` (which any
live custom list occupies) and appends the counter to the *title*,
yielding `custom_list_hardware_2` — not the claimed id, and not of the
numeric-suffix form `custom_list_1`, `custom_list_2`, … either. -/
theorem C5_counterexample :
    (add_widget 0 [] "custom_list" "Groceries" 2).widget_id =
      "custom_list_groceries" ∧
    (add_widget 0 [] "custom_list" "Groceries" 2).dock_name = "dock_custom_list" ∧
    spec_allocate true ["custom_list_groceries"] "custom_list" "Hardware" =
      "custom_list_hardware" ∧
    (add_widget 0 ["dock_custom_list"] "custom_list" "Hardware" 2).widget_id =
      "custom_list_hardware_2" ∧
    "custom_list_hardware_2" ≠ "custom_list_hardware" := by
  refine ⟨by decide, by decide, by decide, by decide, by decide⟩

/-- C5 (amended).  `add_widget`'s id allocation: a kind outside
{tree_list, custom_list, code_viewer, wysiwyg_editor} gets the base
module name verbatim.  For the multi-instance kinds the counter comes
from the dock-object-name loop (candidates `dock_<base>`,
`dock_<base>_1`, …) over the live dock set — not from the candidate id —
and a counter n > 1 is appended to the requested *title*, so the id is
`<base>_sanitize(title)` when `dock_<base>` is free and
`<base>_sanitize(title ++ " 2")` on the first dock-name collision;
tree_list ids are `treelist_d<tab>_<counter>` instead. -/
theorem C5_amended_id_allocation (dI : Nat) (existing : List String)
    (name T : String) (area : Nat) :
    (name ∉ ["tree_list", "custom_list", "code_viewer", "wysiwyg_editor"] →
      (add_widget dI existing name T area).widget_id = name) ∧
    ("dock_custom_list" ∉ existing →
      (add_widget dI existing "custom_list" T area).widget_id =
        "custom_list_" ++ sanitize T) ∧
    ("dock_code_viewer" ∉ existing →
      (add_widget dI existing "code_viewer" T area).widget_id =
        "code_viewer_" ++ sanitize T) ∧
    ("dock_wysiwyg_editor" ∉ existing →
      (add_widget dI existing "wysiwyg_editor" T area).widget_id =
        "wysiwyg_editor_" ++ sanitize T) ∧
    ("dock_tree_list" ∉ existing →
      (add_widget dI existing "tree_list" T area).widget_id =
        "treelist_d" ++ toString dI ++ "_" ++ toString 1) ∧
    ("dock_custom_list" ∈ existing → "dock_custom_list_1" ∉ existing →
      (add_widget dI existing "custom_list" T area).widget_id =
        "custom_list_" ++ sanitize (T ++ " 2")) := by
  refine ⟨?_, ?_, ?_, ?_, ?_, ?_⟩
  · intro h
    simp only [List.mem_cons, List.not_mem_nil, or_false, not_or] at h
    obtain ⟨h1, h2, h3, h4⟩ := h
    simp [add_widget, h1, h2, h3, h4]
  · intro h
    simp [add_widget, dockNameLoop, h]
  · intro h
    simp [add_widget, dockNameLoop, h]
  · intro h
    simp [add_widget, dockNameLoop, h]
  · intro h
    simp [add_widget, dockNameLoop, h]
  · intro h h2
    obtain ⟨a, as, rfl⟩ : ∃ a as, existing = a :: as := by
      cases existing with
      | nil => cases h
      | cons a as => exact ⟨a, as, rfl⟩
    simp [add_widget, dockNameLoop, h, h2, String.append_assoc,
      show toString (1 : Nat) = "1" from rfl, show toString (2 : Nat) = "2" from rfl]

theorem C5_witness :
    ("clock" ∉ ["tree_list", "custom_list", "code_viewer", "wysiwyg_editor"] ∧
      (add_widget 0 ["dock_custom_list"] "clock" "Clock" 2).widget_id = "clock") ∧
    ("dock_code_viewer" ∉ ["dock_custom_list"] ∧
      (add_widget 0 ["dock_custom_list"] "code_viewer" "My Notes" 2).widget_id =
        "code_viewer_" ++ sanitize "My Notes") ∧
    ("dock_custom_list" ∈ ["dock_custom_list"] ∧
      "dock_custom_list_1" ∉ ["dock_custom_list"] ∧
      (add_widget 0 ["dock_custom_list"] "custom_list" "Hardware" 2).widget_id =
        "custom_list_" ++ sanitize ("Hardware" ++ " 2")) :=
  ⟨⟨by decide,
      (C5_amended_id_allocation 0 ["dock_custom_list"] "clock" "Clock" 2).1
        (by decide)⟩,
    ⟨by decide,
      (C5_amended_id_allocation 0 ["dock_custom_list"] "code_viewer" "My Notes" 2).2.2.1
        (by decide)⟩,
    ⟨by decide, by decide,
      (C5_amended_id_allocation 0 ["dock_custom_list"] "custom_list" "Hardware" 2).2.2.2.2.2
        (by decide) (by decide)⟩⟩

/-! ## C6: base-module recovery from persisted ids -/

theorem isPrefixOf_append_self (l m : List Char) : l.isPrefixOf (l ++ m) = true := by
  induction l with
  | nil => simp [List.isPrefixOf]
  | cons c cs ih => simp [List.isPrefixOf, ih]

theorem strStartsWith_append_self (p t : String) : strStartsWith p (p ++ t) = true := by
  have hdata : (p ++ t).data = p.data ++ t.data := rfl
  simp only [strStartsWith, hdata]
  exact isPrefixOf_append_self _ _

/-- If neither of two character lists is a prefix of the other, the first
is not a prefix of any extension of the second. -/
theorem isPrefixOf_append_eq_false (p : List Char) :
    ∀ q t, p.isPrefixOf q = false → q.isPrefixOf p = false →
      p.isPrefixOf (q ++ t) = false := by
  induction p with
  | nil => intro q t h1 _; simp [List.isPrefixOf] at h1
  | cons c cs ih =>
      intro q t h1 h2
      cases q with
      | nil => simp [List.isPrefixOf] at h2
      | cons d ds =>
          simp only [List.isPrefixOf, List.cons_append, Bool.and_eq_false_iff] at h1 h2 ⊢
          rcases h1 with h1 | h1
          · exact Or.inl h1
          · rcases h2 with h2 | h2
            · left
              cases hcd : c == d
              · rfl
              · have hceq : c = d := by simpa using hcd
                subst hceq
                simp at h2
            · exact Or.inr (ih ds t h1 h2)

theorem strStartsWith_append_false (p q t : String)
    (h1 : strStartsWith p q = false) (h2 : strStartsWith q p = false) :
    strStartsWith p (q ++ t) = false := by
  have hdata : (q ++ t).data = q.data ++ t.data := rfl
  simp only [strStartsWith, hdata]
  exact isPrefixOf_append_eq_false p.data q.data t.data h1 h2

/-- C6.  Base-module recovery from a persisted id: the source's
fixed-order stripping over the four known prefixes returns the true base
module for every id of each generated family, whatever the sanitised
title `t` (including titles that themselves begin with another kind's
prefix, e.g. `custom_list_code_viewer_notes`), and on all those ids —
and on ids matching no known prefix, recovered verbatim — it coincides
with longest-prefix matching over the known prefixes: the four prefixes
are pairwise prefix-incomparable, so at most one can match an id. -/
theorem C6_base_module_recovery (t : String) :
    (stripBase ("custom_list_" ++ t) = "custom_list" ∧
      longestPrefixBase ("custom_list_" ++ t) = "custom_list") ∧
    (stripBase ("code_viewer_" ++ t) = "code_viewer" ∧
      longestPrefixBase ("code_viewer_" ++ t) = "code_viewer") ∧
    (stripBase ("treelist_" ++ t) = "tree_list" ∧
      longestPrefixBase ("treelist_" ++ t) = "tree_list") ∧
    (stripBase ("wysiwyg_editor_" ++ t) = "wysiwyg_editor" ∧
      longestPrefixBase ("wysiwyg_editor_" ++ t) = "wysiwyg_editor") ∧
    (∀ id : String, (∀ pb ∈ knownBases, strStartsWith pb.1 id = false) →
      stripBase id = id ∧ longestPrefixBase id = id) := by
  refine ⟨?_, ?_, ?_, ?_, ?_⟩
  · have h1 := strStartsWith_append_false "code_viewer_" "custom_list_" t
      (by decide) (by decide)
    have h2 := strStartsWith_append_false "treelist_" "custom_list_" t
      (by decide) (by decide)
    have h3 := strStartsWith_append_false "wysiwyg_editor_" "custom_list_" t
      (by decide) (by decide)
    constructor
    · simp [stripBase, strStartsWith_append_self]
    · simp [longestPrefixBase, knownBases, strStartsWith_append_self, h1, h2, h3]
  · have h1 := strStartsWith_append_false "custom_list_" "code_viewer_" t
      (by decide) (by decide)
    have h2 := strStartsWith_append_false "treelist_" "code_viewer_" t
      (by decide) (by decide)
    have h3 := strStartsWith_append_false "wysiwyg_editor_" "code_viewer_" t
      (by decide) (by decide)
    constructor
    · simp [stripBase, strStartsWith_append_self, h1]
    · simp [longestPrefixBase, knownBases, strStartsWith_append_self, h1, h2, h3]
  · have h1 := strStartsWith_append_false "custom_list_" "treelist_" t
      (by decide) (by decide)
    have h2 := strStartsWith_append_false "code_viewer_" "treelist_" t
      (by decide) (by decide)
    have h3 := strStartsWith_append_false "wysiwyg_editor_" "treelist_" t
      (by decide) (by decide)
    constructor
    · simp [stripBase, strStartsWith_append_self, h1, h2]
    · simp [longestPrefixBase, knownBases, strStartsWith_append_self, h1, h2, h3]
  · have h1 := strStartsWith_append_false "custom_list_" "wysiwyg_editor_" t
      (by decide) (by decide)
    have h2 := strStartsWith_append_false "code_viewer_" "wysiwyg_editor_" t
      (by decide) (by decide)
    have h3 := strStartsWith_append_false "treelist_" "wysiwyg_editor_" t
      (by decide) (by decide)
    constructor
    · simp [stripBase, strStartsWith_append_self, h1, h2, h3]
    · simp [longestPrefixBase, knownBases, strStartsWith_append_self, h1, h2, h3]
  · intro id hnone
    have h1 := hnone ("custom_list_", "custom_list") (by decide)
    have h2 := hnone ("code_viewer_", "code_viewer") (by decide)
    have h3 := hnone ("treelist_", "tree_list") (by decide)
    have h4 := hnone ("wysiwyg_editor_", "wysiwyg_editor") (by decide)
    constructor
    · simp [stripBase, h1, h2, h3, h4]
    · simp [longestPrefixBase, knownBases, h1, h2, h3, h4]

theorem C6_witness :
    stripBase ("custom_list_" ++ "code_viewer_notes") = "custom_list" ∧
    (∀ pb ∈ knownBases, strStartsWith pb.1 "clock" = false) ∧
    stripBase "clock" = "clock" ∧ longestPrefixBase "clock" = "clock" :=
  ⟨(C6_base_module_recovery "code_viewer_notes").1.1,
    by decide,
    ((C6_base_module_recovery "").2.2.2.2 "clock" (by decide)).1,
    ((C6_base_module_recovery "").2.2.2.2 "clock" (by decide)).2⟩

/-! ## C9: a dashboard restoring zero widgets is kept, not replaced -/

/-- A non-empty saved record none of whose widgets resolves. -/
def diGhostEx : DashboardInfo :=
  ⟨"Empty", "", [⟨"ghost_widget", "dock_ghost", "Ghost", 2, false, true,
    ⟨0, 0, 200, 200⟩⟩]⟩

/-- C9 counterexample.  `diGhostEx` is non-empty and zero of its widgets
restore, yet `restore_layout` keeps the failed dashboard (title
`"Empty"`, no docks) instead of creating the default dashboard: in the
source `restore_dashboard_layout` returns `None` — no widget count — and
`restore_layout` increments `restored_count` for every record whose tab
was created, so the zero-restored fallback of line 547 never fires for a
non-empty document. -/
theorem C9_counterexample :
    diGhostEx.widgets ≠ [] ∧
    restore_layout ["clock"] (Stored.doc [diGhostEx]) [] =
      [⟨"Empty", [], []⟩] ∧
    (⟨"Empty", [], []⟩ : LiveDashboard).docks = [] ∧
    restore_layout ["clock"] (Stored.doc [diGhostEx]) [] ≠
      [defaultDashboard 0] := by
  refine ⟨by decide, by decide, rfl, by decide⟩

theorem restoreDashboards_length (reg : Registry) (infos : List DashboardInfo) :
    ∀ i, (restoreDashboards reg i infos).length = infos.length := by
  induction infos with
  | nil => intro i; rfl
  | cons di rest ih =>
      intro i
      rw [restoreDashboards]
      simp [ih (i + 1)]

theorem restoreDashboards_titles (reg : Registry) (infos : List DashboardInfo) :
    ∀ i, (restoreDashboards reg i infos).map (fun d => d.title) =
      infos.map (fun di => di.title) := by
  induction infos with
  | nil => intro i; rfl
  | cons di rest ih =>
      intro i
      rw [restoreDashboards]
      simp only [List.map_cons, ih (i + 1)]
      rfl

/-- C9 (amended).  `restore_dashboard_layout` reports no restored-widget
count to its caller; `restore_layout` counts a dashboard as restored
whenever its tab is created without an exception, so every record of a
non-empty document yields exactly one kept dashboard with the saved
title — even a non-empty record from which zero widgets were restored —
and the single default dashboard is created only for an absent, malformed
or empty document. -/
theorem C9_amended_failed_dashboard_kept (reg : Registry)
    (infos : List DashboardInfo) (init : Workspace) (h : infos ≠ []) :
    restore_layout reg (Stored.doc infos) init = restoreDashboards reg 0 infos ∧
    (restore_layout reg (Stored.doc infos) init).length = infos.length ∧
    (restore_layout reg (Stored.doc infos) init).map (fun d => d.title) =
      infos.map (fun di => di.title) := by
  have hempty : infos.isEmpty = false := by
    cases infos with
    | nil => exact absurd rfl h
    | cons a as => rfl
  have hrl : restore_layout reg (Stored.doc infos) init =
      restoreDashboards reg 0 infos := by
    simp [restore_layout, hempty]
  exact ⟨hrl, by rw [hrl]; exact restoreDashboards_length reg infos 0,
    by rw [hrl]; exact restoreDashboards_titles reg infos 0⟩

theorem C9_witness :
    [diGhostEx] ≠ ([] : List DashboardInfo) ∧
    restore_layout ["clock"] (Stored.doc [diGhostEx]) [] =
      restoreDashboards ["clock"] 0 [diGhostEx] ∧
    (restore_layout ["clock"] (Stored.doc [diGhostEx]) []).length = 1 ∧
    (restore_layout ["clock"] (Stored.doc [diGhostEx]) []).map (fun d => d.title) =
      ["Empty"] :=
  ⟨by decide,
    (C9_amended_failed_dashboard_kept ["clock"] [diGhostEx] [] (by decide)).1,
    (C9_amended_failed_dashboard_kept ["clock"] [diGhostEx] [] (by decide)).2.1,
    (C9_amended_failed_dashboard_kept ["clock"] [diGhostEx] [] (by decide)).2.2⟩

/-! ## C4: rename migration of a custom list -/

/-- Database before the rename: a custom list `custom_list_foo` with a
user-added second column and one item. -/
def c4db : DB :=
  [(("custom_list_foo", "columns"), DBVal.vList ["title", "done"]),
   (("custom_list_foo", "items"), DBVal.vList ["milk"])]

/-- The live widget: id `custom_list_foo`, title "Foo", in-memory state
matching the database. -/
def c4widget : CustomListState :=
  ⟨"custom_list_foo", "Foo", ["title", "done"], ["milk"]⟩

/-- C4.  `edit_title` evaluated at the failing input: renaming "Foo" to
"Bar" does migrate the items, but the `widget_id` property setter reloads
state from the database under the *new* id before the migration writes
happen, so `load_columns` resets the in-memory columns to the default and
the subsequent `save_columns` stores the default single column — not the
old data — under `custom_list_bar`; the old id's keys are overwritten
with `"[]"` (present-but-empty) rather than removed.  The persisted
column configuration is lost on rename, contradicting the claim (and the
source's own intent: its `edit_title` captures `columns`/`items` into
dead local variables under a "Move settings to new widget ID" comment,
and the sibling `code_viewer` widget migrates correctly by reading the
old keys before writing). -/
theorem C4_rename_loses_columns :
    (edit_title c4db c4widget "Bar").2.widget_id = "custom_list_bar" ∧
    dbGet (edit_title c4db c4widget "Bar").1 "custom_list_bar" "items" =
      some (DBVal.vList ["milk"]) ∧
    dbGet (edit_title c4db c4widget "Bar").1 "custom_list_bar" "columns" =
      some (DBVal.vList ["title"]) ∧
    some (DBVal.vList ["title"]) ≠ some (DBVal.vList ["title", "done"]) ∧
    dbGet (edit_title c4db c4widget "Bar").1 "custom_list_foo" "columns" =
      some (DBVal.vList []) ∧
    dbGet (edit_title c4db c4widget "Bar").1 "custom_list_foo" "items" =
      some (DBVal.vList []) := by
  refine ⟨by decide, by decide, by decide, by decide, by decide, by decide⟩

end Dashboard
